import Mathlib

set_option maxHeartbeats 1000000

namespace IdaesSpec

/-!
Shallow embedding of parts of the IDAES process-modelling library, together
with proofs about the behaviour of those parts.

The first section embeds the FPTx state-definition method
(idaes/property_models/core/generic/state_methods.py).  The method attaches
Pyomo constraints to a state block; we embed the symbolic equations it
constructs as an expression tree over the state variables it declares, and
the constraint-construction portion of the method (lines 80-159 of the
source) as a function from the block's parameters to the list of named
constraints it adds, with one list entry per member of an indexed
constraint.
-/

/-- Symbolic expressions over the variables declared by the FPTx state
definition: flow_mol, mole_frac_comp, flow_mol_phase, mole_frac_phase_comp
and phase_frac, with rational literals, sums, differences and products. -/
inductive PExpr where
  | lit : ℚ → PExpr
  | flow_mol : PExpr
  | mole_frac_comp : String → PExpr
  | flow_mol_phase : String → PExpr
  | mole_frac_phase_comp : String → String → PExpr
  | phase_frac : String → PExpr
  | add : PExpr → PExpr → PExpr
  | sub : PExpr → PExpr → PExpr
  | mul : PExpr → PExpr → PExpr
deriving DecidableEq, Repr

/-- Python's sum over a generator of expressions (0 + e1 + e2 + ...). -/
def PExpr.total : List PExpr → PExpr :=
  List.foldl PExpr.add (PExpr.lit 0)

/-- An equality constraint as attached to the block: the Pyomo component
name it is stored under, and the two sides of the equation. -/
structure PCons where
  name : String
  lhs : PExpr
  rhs : PExpr
deriving DecidableEq, Repr

/-- The parameters the FPTx constraint construction depends on: the
parameter block's component list and phase list, and the state block's
defined_state configuration flag. -/
structure FPTxParams where
  component_list : List String
  phase_list : List String
  defined_state : Bool
deriving DecidableEq, Repr

/-- The closure constraint 1 == sum(mole_frac_comp[i] for i in components),
added under the name sum_mole_frac_out when defined_state is False. -/
def sumMoleFracOut (cl : List String) : PCons :=
  { name := "sum_mole_frac_out",
    lhs := PExpr.lit 1,
    rhs := PExpr.total (cl.map PExpr.mole_frac_comp) }

/-- The general-form component material balance
flow_mol*mole_frac_comp[i] == sum over phases of
flow_mol_phase[p]*mole_frac_phase_comp[p,i], used by the two-phase and
the general branches of FPTx. -/
def compBalanceGeneral (pl : List String) (i : String) : PCons :=
  { name := "component_flow_balances",
    lhs := PExpr.mul PExpr.flow_mol (PExpr.mole_frac_comp i),
    rhs := PExpr.total (pl.map (fun p =>
      PExpr.mul (PExpr.flow_mol_phase p) (PExpr.mole_frac_phase_comp p i))) }

/-- The constraint-construction portion of FPTx
(state_methods.py lines 80-159).  The three branches follow the source's
`if len(phase_list) == 1` / `elif len(phase_list) == 2` / `else`
structure; `phase_list[1]` and `phase_list[2]` in the source are the
first and second members of the (ordered, 1-indexed) Pyomo set.  Each
branch lists the constraints in the order the source adds them, expanding
an indexed constraint into one entry per index. -/
def FPTx (ps : FPTxParams) : List PCons :=
  match ps.phase_list with
  | [p] =>
      [{ name := "total_flow_balance",
         lhs := PExpr.flow_mol_phase p, rhs := PExpr.flow_mol }]
      ++ ps.component_list.map (fun i =>
           { name := "component_flow_balances",
             lhs := PExpr.mole_frac_comp i,
             rhs := PExpr.mole_frac_phase_comp p i })
      ++ (if ps.defined_state = false then [sumMoleFracOut ps.component_list] else [])
      ++ [{ name := "phase_fraction_constraint",
            lhs := PExpr.phase_frac p, rhs := PExpr.lit 1 }]
  | [p1, p2] =>
      [{ name := "total_flow_balance",
         lhs := PExpr.total ([p1, p2].map PExpr.flow_mol_phase),
         rhs := PExpr.flow_mol }]
      ++ ps.component_list.map (compBalanceGeneral [p1, p2])
      ++ [{ name := "sum_mole_frac",
            lhs := PExpr.sub
              (PExpr.total (ps.component_list.map (PExpr.mole_frac_phase_comp p1)))
              (PExpr.total (ps.component_list.map (PExpr.mole_frac_phase_comp p2))),
            rhs := PExpr.lit 0 }]
      ++ (if ps.defined_state = false then [sumMoleFracOut ps.component_list] else [])
      ++ [p1, p2].map (fun p =>
           { name := "phase_fraction_constraint",
             lhs := PExpr.mul (PExpr.phase_frac p) PExpr.flow_mol,
             rhs := PExpr.flow_mol_phase p })
  | pl =>
      ps.component_list.map (compBalanceGeneral pl)
      ++ pl.map (fun p =>
           { name := "sum_mole_frac",
             lhs := PExpr.total (ps.component_list.map (PExpr.mole_frac_phase_comp p)),
             rhs := PExpr.lit 1 })
      ++ (if ps.defined_state = false then [sumMoleFracOut ps.component_list] else [])
      ++ pl.map (fun p =>
           { name := "phase_fraction_constraint",
             lhs := PExpr.mul (PExpr.phase_frac p) PExpr.flow_mol,
             rhs := PExpr.flow_mol_phase p })

/-!
Embedding of the CompressionStage unit model
(idaes/power_generation/carbon_capture/compression_system/compressor.py).
We embed the diffuser/impeller dispatch logic of CompressionStageData.build
(lines 270-298): the configuration options involved, and the observable
actions of each branch (logging a warning, building a set of standard
equations, or invoking the user callback).  Configuration errors are
Except errors carrying the source's message.
-/

/-- ImpellerType enumeration from the source. -/
inductive ImpellerType where
  | cover_impeller
  | open_impeller
  | custom
deriving DecidableEq, Repr

/-- VaneDiffuserType enumeration from the source. -/
inductive VaneDiffuserType where
  | vane_diffuser
  | vaneless_diffuser
  | custom
deriving DecidableEq, Repr

/-- A user-supplied callback, identified abstractly. -/
structure Callback where
  id : ℕ
deriving DecidableEq, Repr

/-- Observable actions of the dispatch section of CompressionStageData.build. -/
inductive BuildAction where
  | logWarning
  | vaneDiffuserEquations
  | vanelessDiffuserEquations
  | vaneDiffuserCallbackInvoked (cb : Callback)
  | coverImpellerEquations
  | openImpellerEquations
  | impellerCallbackInvoked (cb : Callback)
deriving DecidableEq, Repr

/-- The CONFIG options of CompressionStage the dispatch logic reads.  All
four default to None in the source. -/
structure CompressionStageConfig where
  impeller_type : Option ImpellerType
  vane_diffuser_type : Option VaneDiffuserType
  impeller_callback : Option Callback
  vane_diffuser_callback : Option Callback
deriving DecidableEq, Repr

/-- Errors raised by the dispatch logic. -/
inductive CompressorError where
  | configurationError (msg : String)
deriving DecidableEq, Repr

/-- The vane diffuser dispatch (compressor.py lines 270-283): if the type
is not custom and a callback was supplied, only log a warning; otherwise
select the standard equation set by type; otherwise require and invoke the
custom callback, raising ConfigurationError when it is absent. -/
def vaneDiffuserSetup (vdselect : Option VaneDiffuserType)
    (vdcb : Option Callback) : Except CompressorError (List BuildAction) :=
  if vdselect ≠ some VaneDiffuserType.custom ∧ vdcb ≠ none then
    Except.ok [BuildAction.logWarning]
  else if vdselect = some VaneDiffuserType.vane_diffuser then
    Except.ok [BuildAction.vaneDiffuserEquations]
  else if vdselect = some VaneDiffuserType.vaneless_diffuser then
    Except.ok [BuildAction.vanelessDiffuserEquations]
  else
    match vdcb with
    | none => Except.error (CompressorError.configurationError
        "No custom vane diffuser callback provided")
    | some cb => Except.ok [BuildAction.vaneDiffuserCallbackInvoked cb]

/-- The impeller dispatch (compressor.py lines 285-298), same shape as
the vane diffuser dispatch. -/
def impellerSetup (iselect : Option ImpellerType)
    (icb : Option Callback) : Except CompressorError (List BuildAction) :=
  if iselect ≠ some ImpellerType.custom ∧ icb ≠ none then
    Except.ok [BuildAction.logWarning]
  else if iselect = some ImpellerType.cover_impeller then
    Except.ok [BuildAction.coverImpellerEquations]
  else if iselect = some ImpellerType.open_impeller then
    Except.ok [BuildAction.openImpellerEquations]
  else
    match icb with
    | none => Except.error (CompressorError.configurationError
        "No custom impeller callback provided")
    | some cb => Except.ok [BuildAction.impellerCallbackInvoked cb]

/-- The dispatch section of CompressionStageData.build: the vane diffuser
rule is set up first, then the impeller rule; the actions are performed in
that order and the first ConfigurationError aborts the build. -/
def compressionStageBuild (cfg : CompressionStageConfig) :
    Except CompressorError (List BuildAction) := do
  let vd ← vaneDiffuserSetup cfg.vane_diffuser_type cfg.vane_diffuser_callback
  let imp ← impellerSetup cfg.impeller_type cfg.impeller_callback
  pure (vd ++ imp)

/-!
Embedding of the Product unit model (idaes/models/unit_models/product.py).
ProductData.build constructs one state block over the flowsheet time
domain, adds one top-level reference per state variable the block reports,
and adds a single port.  We model the property package by the list of
state-variable names its define_state_vars reports, a state block by the
arguments build_state_block receives, and build by the record of what it
attaches to the unit model.
-/

/-- A property package, abstracted to what ProductData.build observes of
it: the keys of the dict returned by define_state_vars. -/
structure PropertyPackage where
  state_vars : List String
deriving DecidableEq, Repr

/-- A state block as constructed by build_state_block: the time domain it
is indexed by (identified abstractly), the defined_state and
has_phase_equilibrium arguments, and the owning package. -/
structure StateBlock where
  time : ℕ
  defined_state : Bool
  has_phase_equilibrium : Bool
  pkg : PropertyPackage
deriving DecidableEq, Repr

/-- A port added by add_port: its name and the state block it exposes. -/
structure UnitPort where
  name : String
  block : StateBlock
deriving DecidableEq, Repr

/-- What ProductData.build attaches to the unit model. -/
structure ProductModel where
  properties : StateBlock
  references : List String
  ports : List UnitPort
deriving DecidableEq, Repr

/-- ProductData.build (product.py lines 94-130): construct the state block
with defined_state=True and has_phase_equilibrium=False over the
flowsheet's time domain, loop over define_state_vars adding one reference
per state variable, and add the single port named inlet attached to the
state block. -/
def productBuild (time : ℕ) (pkg : PropertyPackage) : ProductModel :=
  let properties : StateBlock :=
    { time := time, defined_state := true,
      has_phase_equilibrium := false, pkg := pkg }
  let refs := pkg.state_vars.foldl (fun acc s => acc ++ [s]) []
  { properties := properties,
    references := refs,
    ports := [{ name := "inlet", block := properties }] }

/-!
Modelled from the spec: the generic property package core
(idaes/property_models/core/generic/generic_property.py) is not part of
the source tree; only its test suite is.  The spec describes it as the
mechanism that synthesizes state variables and constraints from a
declarative configuration (component list, phase list, equation-of-state
choice, state-variable formulation) via a plugin-style dispatch system.
The definitions below model the configuration validation of
GenericParameterData and the get_method dispatch helper from those words
and from the behaviour its test suite exercises.
-/

/-- Errors raised while building a generic property parameter block. -/
inductive GPError where
  | configurationError (msg : String)
deriving DecidableEq, Repr

/-- Modelled from the spec: the declarative configuration of a generic
property parameter block.  Phases are labelled by integers and components
by strings, as in the test suite; a phase_equilibrium_dict entry is a key
with a component and a pair of phases. -/
structure GPConfig where
  component_list : Option (List String)
  phase_list : Option (List ℤ)
  phase_component_list : Option (List (ℤ × List String))
  phase_equilibrium_formulation : Option ℕ
  phase_equilibrium_dict : Option (List (ℤ × String × ℤ × ℤ))
deriving DecidableEq, Repr

/-- Modelled from the spec: the parameter block produced by a successful
configure, carrying the validated phase-equilibrium data. -/
structure GPParamBlock where
  config : GPConfig
  phase_equilibrium_list : Option (List (ℤ × String × ℤ × ℤ))
  phase_equilibrium_idx : Option (List ℤ)
deriving DecidableEq, Repr

/-- Modelled from the spec: validation of phase_component_list; every key
must be a member of phase_list and every listed component a member of
component_list, with the first offending entry reported. -/
def checkPhaseComp (cl : List String) (pl : List ℤ) :
    List (ℤ × List String) → Except GPError Unit
  | [] => Except.ok ()
  | (p, comps) :: rest =>
    if p ∈ pl then
      if ∀ c ∈ comps, c ∈ cl then checkPhaseComp cl pl rest
      else Except.error (GPError.configurationError
        "invalid phase_component_list. Component is not a member of component_list.")
    else Except.error (GPError.configurationError
      "invalid phase_component_list. Phase is not a member of phase_list.")

/-- Modelled from the spec: GenericParameterData configuration processing.
A component_list and a phase_list are required; phase_component_list and
phase_equilibrium_dict are validated against them;
phase_equilibrium_formulation and phase_equilibrium_dict must be given
together or not at all; on success phase_equilibrium_list is the given
dict and phase_equilibrium_idx the set of its keys. -/
def gpConfigure (cfg : GPConfig) : Except GPError GPParamBlock :=
  match cfg.component_list with
  | none => Except.error (GPError.configurationError
      "Generic Property Package was not provided with a component_list.")
  | some cl =>
    match cfg.phase_list with
    | none => Except.error (GPError.configurationError
        "Generic Property Package was not provided with a phase_list.")
    | some pl =>
      match checkPhaseComp cl pl (cfg.phase_component_list.getD []) with
      | Except.error e => Except.error e
      | Except.ok () =>
        match cfg.phase_equilibrium_formulation, cfg.phase_equilibrium_dict with
        | none, none =>
          Except.ok { config := cfg,
                      phase_equilibrium_list := none,
                      phase_equilibrium_idx := none }
        | some _, none =>
          Except.error (GPError.configurationError
            "provided with only one of phase_equilibrium_formulation and phase_equilibrium_dict.")
        | none, some _ =>
          Except.error (GPError.configurationError
            "provided with only one of phase_equilibrium_formulation and phase_equilibrium_dict.")
        | some _, some d =>
          if ∀ e ∈ d, e.2.1 ∈ cl ∧ e.2.2.1 ∈ pl ∧ e.2.2.2 ∈ pl then
            Except.ok { config := cfg,
                        phase_equilibrium_list := some d,
                        phase_equilibrium_idx := some (d.map Prod.fst) }
          else
            Except.error (GPError.configurationError
              "provided with invalid phase_equilibrium_dict.")

/-- A configured method value, identified abstractly.  Python function
identity in the tests becomes equality of these identifiers. -/
structure MethodVal where
  id : ℕ
deriving DecidableEq, Repr

/-- A Python module as get_method observes it: a table of named
functions. -/
structure PyModule where
  funcs : List (String × MethodVal)
deriving DecidableEq, Repr

/-- What a parameter-block config entry can hold for a property option:
nothing, a function, a module, or some other value. -/
inductive ConfigEntry where
  | cnone
  | cmethod (f : MethodVal)
  | cmodule (m : PyModule)
  | cother
deriving DecidableEq, Repr

/-- The errors get_method can raise. -/
inductive GetMethodError where
  | genericPropertyPackageError
  | attributeError
  | configurationError
deriving DecidableEq, Repr

/-- Modelled from the spec: the get_method dispatch helper of the generic
property package.  Looking up an option that is not declared in the config
is an AttributeError; a None entry raises GenericPropertyPackageError; a
function entry is returned as is; a module entry resolves to the function
of the same name inside the module (AttributeError when absent); anything
else raises ConfigurationError. -/
def get_method (config : List (String × ConfigEntry)) (option : String) :
    Except GetMethodError MethodVal :=
  match config.lookup option with
  | none => Except.error GetMethodError.attributeError
  | some ConfigEntry.cnone => Except.error GetMethodError.genericPropertyPackageError
  | some (ConfigEntry.cmethod f) => Except.ok f
  | some (ConfigEntry.cmodule m) =>
    match m.funcs.lookup option with
    | some f => Except.ok f
    | none => Except.error GetMethodError.attributeError
  | some ConfigEntry.cother => Except.error GetMethodError.configurationError

/-!
Modelled from the spec: the flowsheet model (idaes/core/flowsheet_model.py)
is not part of the source tree; only its test suite is.  The spec describes
a flowsheet as a hierarchical container of connected unit models sharing a
common time domain.  The definitions below model the time-domain setup of
FlowsheetBlockData.build from those words and from the behaviour the test
suite exercises: the dynamic flag defaults to the parent's (False at top
level), a dynamic flowsheet inside a steady-state parent is a DynamicError,
an explicitly passed time domain is used as is but must be a ContinuousSet
when dynamic, a sub-flowsheet without an explicit time domain shares the
parent's time object and time units, and a top-level flowsheet creates its
own time domain from time_set (a ContinuousSet when dynamic, requiring a
list rather than a scalar time_set).
-/

/-- Units of measurement for the time domain. -/
inductive TimeUnits where
  | seconds
  | minutes
deriving DecidableEq, Repr

/-- A time-domain component.  The id stands for Python object identity,
so sharing "the same object" is equality of ids; isContinuous records
whether the component is a ContinuousSet. -/
structure TimeDomain where
  id : ℕ
  isContinuous : Bool
deriving DecidableEq, Repr

/-- The time_set configuration argument: a scalar or a list of points. -/
inductive TimeSetArg where
  | scalar (t : ℚ)
  | points (l : List ℚ)
deriving DecidableEq, Repr

/-- Modelled from the spec: the flowsheet configuration entries involved
in time-domain setup.  dynamic = none is useDefault. -/
structure FSConfig where
  dynamic : Option Bool
  time : Option TimeDomain
  time_set : TimeSetArg
  time_units : Option TimeUnits
deriving DecidableEq, Repr

/-- What a sub-flowsheet observes of its parent flowsheet: the resolved
dynamic flag, the time domain and the time units. -/
structure FSParent where
  dynamic : Bool
  time : TimeDomain
  time_units : Option TimeUnits
deriving DecidableEq, Repr

/-- The DynamicError exception. -/
inductive DynError where
  | dynamicError (msg : String)
deriving DecidableEq, Repr

/-- The outcome of a successful flowsheet build: the resolved dynamic
flag, the config.time entry after the build, and the time units. -/
structure FSResult where
  dynamic : Bool
  time : TimeDomain
  time_units : Option TimeUnits
deriving DecidableEq, Repr

/-- Modelled from the spec: resolution of the dynamic flag; useDefault
inherits the parent's flag and is False for a top-level flowsheet. -/
def resolveDynamic (parent : Option FSParent) (cfg : FSConfig) : Bool :=
  match cfg.dynamic with
  | some d => d
  | none =>
    match parent with
    | some p => p.dynamic
    | none => false

/-- Modelled from the spec: the time-domain setup of
FlowsheetBlockData.build.  fresh is the identity given to a newly created
local time domain. -/
def flowsheetBuild (parent : Option FSParent) (fresh : ℕ) (cfg : FSConfig) :
    Except DynError FSResult :=
  let dyn := resolveDynamic parent cfg
  let ssParent : Bool :=
    match parent with
    | some p => !p.dynamic
    | none => false
  if dyn && ssParent then
    Except.error (DynError.dynamicError
      "trying to declare a dynamic model within a steady-state flowsheet")
  else
    match cfg.time with
    | some t =>
      if dyn && !t.isContinuous then
        Except.error (DynError.dynamicError
          "time domain provided was not a ContinuousSet")
      else
        Except.ok { dynamic := dyn, time := t, time_units := cfg.time_units }
    | none =>
      match parent with
      | some p =>
        Except.ok { dynamic := dyn, time := p.time, time_units := p.time_units }
      | none =>
        if dyn then
          match cfg.time_set with
          | TimeSetArg.scalar _ =>
            Except.error (DynError.dynamicError
              "dynamic flowsheet requires a list of points for time_set")
          | TimeSetArg.points _ =>
            Except.ok { dynamic := true,
                        time := { id := fresh, isContinuous := true },
                        time_units := cfg.time_units }
        else
          Except.ok { dynamic := false,
                      time := { id := fresh, isContinuous := false },
                      time_units := cfg.time_units }

/-!
Modelled from the spec: the replace_variables transformation
(idaes plugins) is not part of the source tree; only its test suite is.
The definitions below model it over symbolic algebraic expressions: a
model is the collection of its constraint bodies, named Expressions and
Objectives, each sitting at some block path; apply_to validates the
substitution pairs (both members must be variables, an indexed variable
may only be replaced by an indexed variable whose index set covers its
indexes) and replaces variables in every expression of the model.
-/

/-- A variable occurrence: component name and index tuple (empty for a
scalar variable). -/
structure VarId where
  name : String
  idx : List String
deriving DecidableEq, Repr

/-- Algebraic expressions over variables, as Pyomo expression trees. -/
inductive AExpr where
  | lit (q : ℚ)
  | var (v : VarId)
  | add (a b : AExpr)
  | sub (a b : AExpr)
  | mul (a b : AExpr)
  | pow (a b : AExpr)
deriving DecidableEq, Repr

/-- Power with rational base and exponent, truncating the exponent to a
natural number (the tests only exercise natural exponents). -/
def qpow (x y : ℚ) : ℚ := x ^ y.num.toNat

/-- Evaluation of an expression under a valuation of the variables. -/
def AExpr.eval (v : VarId → ℚ) : AExpr → ℚ
  | AExpr.lit q => q
  | AExpr.var x => v x
  | AExpr.add a b => AExpr.eval v a + AExpr.eval v b
  | AExpr.sub a b => AExpr.eval v a - AExpr.eval v b
  | AExpr.mul a b => AExpr.eval v a * AExpr.eval v b
  | AExpr.pow a b => qpow (AExpr.eval v a) (AExpr.eval v b)

/-- Apply a substitution map to one variable occurrence. -/
def applySubst (σ : List (VarId × VarId)) (x : VarId) : VarId :=
  match σ.lookup x with
  | some y => y
  | none => x

/-- Replace every variable occurrence in an expression through the
substitution map. -/
def AExpr.replace (σ : List (VarId × VarId)) : AExpr → AExpr
  | AExpr.lit q => AExpr.lit q
  | AExpr.var x => AExpr.var (applySubst σ x)
  | AExpr.add a b => AExpr.add (AExpr.replace σ a) (AExpr.replace σ b)
  | AExpr.sub a b => AExpr.sub (AExpr.replace σ a) (AExpr.replace σ b)
  | AExpr.mul a b => AExpr.mul (AExpr.replace σ a) (AExpr.replace σ b)
  | AExpr.pow a b => AExpr.pow (AExpr.replace σ a) (AExpr.replace σ b)

/-- A Pyomo component as a substitution pair member observes it: a scalar
variable or a single member of an indexed variable (carrying its index),
a whole indexed variable (carrying its index set), or some non-variable
component. -/
inductive PyComponent where
  | scalarVar (v : VarId)
  | indexedVar (name : String) (indexSet : List (List String))
  | nonVar (name : String)
deriving DecidableEq, Repr

/-- The exceptions apply_to raises while validating substitution pairs. -/
inductive RvError where
  | typeError
  | valueError
deriving DecidableEq, Repr

/-- Modelled from the spec: validation of one substitution pair and the
variable-level substitutions it induces.  Non-variables are a TypeError,
replacing an indexed variable by a non-indexed one is a TypeError, and an
indexed replacement whose index set does not cover the replaced
variable's indexes is a ValueError; a whole indexed variable is replaced
index-wise. -/
def pairSubstMap : PyComponent → PyComponent →
    Except RvError (List (VarId × VarId))
  | PyComponent.nonVar _, _ => Except.error RvError.typeError
  | _, PyComponent.nonVar _ => Except.error RvError.typeError
  | PyComponent.scalarVar a, PyComponent.scalarVar b => Except.ok [(a, b)]
  | PyComponent.indexedVar n ia, PyComponent.indexedVar m ib =>
    if ∀ i ∈ ia, i ∈ ib then
      Except.ok (ia.map (fun i => (⟨n, i⟩, ⟨m, i⟩)))
    else Except.error RvError.valueError
  | PyComponent.indexedVar _ _, PyComponent.scalarVar _ =>
    Except.error RvError.typeError
  | PyComponent.scalarVar _, PyComponent.indexedVar _ _ =>
    Except.error RvError.typeError

/-- Build the substitution map from the substitute argument, failing on
the first invalid pair. -/
def buildSubstMap : List (PyComponent × PyComponent) →
    Except RvError (List (VarId × VarId))
  | [] => Except.ok []
  | (a, b) :: rest => do
    let m ← pairSubstMap a b
    let ms ← buildSubstMap rest
    pure (m ++ ms)

/-- The kinds of expression-holding components the transformation walks. -/
inductive SlotKind where
  | constraintBody
  | namedExpression
  | objective
deriving DecidableEq, Repr

/-- One expression slot of a model: the block path from the model root
(capturing arbitrary block nesting), the component kind and name, and the
expression held. -/
structure Slot where
  path : List String
  kind : SlotKind
  name : String
  body : AExpr
deriving DecidableEq, Repr

/-- Modelled from the spec: replace_variables.apply_to validates the
substitute list and then replaces variables in every constraint body,
named Expression and Objective at every block depth. -/
def replaceVariablesApplyTo (m : List Slot)
    (substitute : List (PyComponent × PyComponent)) :
    Except RvError (List Slot) := do
  let σ ← buildSubstMap substitute
  pure (m.map (fun s => { s with body := AExpr.replace σ s.body }))

/-- A concrete valuation used by the witnesses: x = 2, y = 3 and every
other variable 0, mirroring the initial values of the tests. -/
def demoVal : VarId → ℚ := fun w =>
  if w.name = "x" then 2 else if w.name = "y" then 3 else 0

/-- The constraint of the scalar replacement test: c1 with body
z - (x + y). -/
def demoSlot : Slot :=
  { path := [], kind := SlotKind.constraintBody, name := "c1",
    body := AExpr.sub (AExpr.var ⟨"z", []⟩)
      (AExpr.add (AExpr.var ⟨"x", []⟩) (AExpr.var ⟨"y", []⟩)) }

/-- The substitute argument of the scalar replacement test: replace y by
x. -/
def demoSubstArg : List (PyComponent × PyComponent) :=
  [(PyComponent.scalarVar ⟨"y", []⟩, PyComponent.scalarVar ⟨"x", []⟩)]

/-- The variable-level substitution map the scalar test induces. -/
def demoSigma : List (VarId × VarId) := [(⟨"y", []⟩, ⟨"x", []⟩)]

/-- The constraint of the scalar replacement test after apply_to: body
z - (x + x). -/
def demoSlotAfter : Slot :=
  { path := [], kind := SlotKind.constraintBody, name := "c1",
    body := AExpr.sub (AExpr.var ⟨"z", []⟩)
      (AExpr.add (AExpr.var ⟨"x", []⟩) (AExpr.var ⟨"x", []⟩)) }

/-- A Python-style sum never reduces to the bare variable flow_mol: it is
the zero literal for an empty list and an addition node otherwise. -/
@[simp]
theorem total_ne_flow_mol (l : List PExpr) :
    PExpr.total l ≠ PExpr.flow_mol := by
  have aux : ∀ (m : List PExpr) (acc : PExpr),
      (acc = PExpr.lit 0 ∨ ∃ a b, acc = PExpr.add a b) →
      List.foldl PExpr.add acc m ≠ PExpr.flow_mol := by
    intro m
    induction m with
    | nil => rintro acc (rfl | ⟨a, b, rfl⟩) <;> simp
    | cons x xs ih =>
      intro acc _
      exact ih (PExpr.add acc x) (Or.inr ⟨acc, x, rfl⟩)
  exact aux l (PExpr.lit 0) (Or.inl rfl)

/-- Symmetric orientation of total_ne_flow_mol, for the simplifier. -/
@[simp]
theorem flow_mol_ne_total (l : List PExpr) :
    PExpr.flow_mol ≠ PExpr.total l :=
  fun h => total_ne_flow_mol l h.symm

/-- Claim C1: the closure constraint sum_mole_frac_out is added by FPTx
if and only if the block's defined_state configuration is False, for every
size of the phase list (one phase, two phases, and three or more). -/
theorem FPTx_sum_mole_frac_out_iff (ps : FPTxParams)
    (hc : ps.component_list ≠ []) (hp : ps.phase_list ≠ []) :
    (∃ c ∈ FPTx ps, c.name = "sum_mole_frac_out") ↔ ps.defined_state = false := by
  obtain ⟨cl, pl, ds⟩ := ps
  cases ds
  case false =>
    refine iff_of_true ⟨sumMoleFracOut cl, ?_, rfl⟩ rfl
    match pl, hp with
    | [p], _ => simp [FPTx]
    | [p1, p2], _ => simp [FPTx]
    | p1 :: p2 :: p3 :: pr, _ => simp [FPTx]
  case true =>
    refine iff_of_false ?_ (by simp)
    rintro ⟨c, hmem, hname⟩
    have hall : ∀ d ∈ FPTx ⟨cl, pl, true⟩, d.name ≠ "sum_mole_frac_out" := by
      match pl, hp with
      | [p], _ =>
        intro d hd
        simp only [FPTx, compBalanceGeneral, List.mem_append, List.mem_cons,
                   List.mem_map, List.not_mem_nil] at hd
        aesop
      | [p1, p2], _ =>
        intro d hd
        simp only [FPTx, compBalanceGeneral, List.mem_append, List.mem_cons,
                   List.mem_map, List.not_mem_nil] at hd
        aesop
      | p1 :: p2 :: p3 :: pr, _ =>
        intro d hd
        simp only [FPTx, compBalanceGeneral, List.mem_append, List.mem_cons,
                   List.mem_map, List.not_mem_nil] at hd
        aesop
    exact hall c hmem hname

/-- Witness for C1 at concrete inputs: a one-phase outlet-style block
(defined_state = False) gets the constraint; a three-phase defined-state
block does not. -/
theorem FPTx_sum_mole_frac_out_iff_witness :
    ((["a", "b"] : List String) ≠ [] ∧ (["Vap"] : List String) ≠ [] ∧
      ((∃ c ∈ FPTx ⟨["a", "b"], ["Vap"], false⟩, c.name = "sum_mole_frac_out") ↔
        (false : Bool) = false)) ∧
    ((["a", "b"] : List String) ≠ [] ∧
      (["Vap", "Liq", "Sol"] : List String) ≠ [] ∧
      ((∃ c ∈ FPTx ⟨["a", "b"], ["Vap", "Liq", "Sol"], true⟩,
          c.name = "sum_mole_frac_out") ↔ (true : Bool) = false)) :=
  ⟨⟨by decide, by decide,
    FPTx_sum_mole_frac_out_iff ⟨["a", "b"], ["Vap"], false⟩ (by decide) (by decide)⟩,
   ⟨by decide, by decide,
    FPTx_sum_mole_frac_out_iff ⟨["a", "b"], ["Vap", "Liq", "Sol"], true⟩
      (by decide) (by decide)⟩⟩

/-- Claim C2 counterexample: for the three-phase list Vap/Liq/Sol the claim
fails.  FPTx constructs no constraint named total_flow_balance, and no
constraint with the bare variable flow_mol on either side (in particular
none equating the sum of the phase molar flows to the total molar flow):
the general branch of the source (the `else` at line 135) omits the total
flow balance entirely. -/
theorem FPTx_three_phase_no_total_flow_balance :
    (FPTx ⟨["a", "b"], ["Vap", "Liq", "Sol"], false⟩).filter
        (fun c => decide (c.name = "total_flow_balance") ||
                  decide (c.lhs = PExpr.flow_mol) ||
                  decide (c.rhs = PExpr.flow_mol)) = [] := by decide

/-- Claim C2 (amended): FPTx constructs the total material balance only for
one- and two-phase lists (flow_mol_phase[p1] == flow_mol for one phase,
sum of flow_mol_phase == flow_mol for two); for three or more phases no
total flow balance is constructed.  For every phase list it constructs the
component material balances: the direct equalities
mole_frac_comp[i] == mole_frac_phase_comp[p,i] for one phase and
flow_mol*mole_frac_comp[i] == sum over phases of
flow_mol_phase[p]*mole_frac_phase_comp[p,i] otherwise. -/
theorem FPTx_material_balances (ps : FPTxParams)
    (hc : ps.component_list ≠ []) (hp : ps.phase_list ≠ []) :
    (∀ p, ps.phase_list = [p] →
        ({ name := "total_flow_balance", lhs := PExpr.flow_mol_phase p,
           rhs := PExpr.flow_mol } : PCons) ∈ FPTx ps ∧
        ∀ i ∈ ps.component_list,
          ({ name := "component_flow_balances", lhs := PExpr.mole_frac_comp i,
             rhs := PExpr.mole_frac_phase_comp p i } : PCons) ∈ FPTx ps) ∧
    (∀ p1 p2, ps.phase_list = [p1, p2] →
        ({ name := "total_flow_balance",
           lhs := PExpr.total ([p1, p2].map PExpr.flow_mol_phase),
           rhs := PExpr.flow_mol } : PCons) ∈ FPTx ps ∧
        ∀ i ∈ ps.component_list, compBalanceGeneral [p1, p2] i ∈ FPTx ps) ∧
    (3 ≤ ps.phase_list.length →
        (∀ c ∈ FPTx ps, c.name ≠ "total_flow_balance" ∧
            c.lhs ≠ PExpr.flow_mol ∧ c.rhs ≠ PExpr.flow_mol) ∧
        ∀ i ∈ ps.component_list,
          compBalanceGeneral ps.phase_list i ∈ FPTx ps) := by
  obtain ⟨cl, pl, ds⟩ := ps
  refine ⟨?_, ?_, ?_⟩
  · rintro p rfl
    refine ⟨by simp [FPTx], fun i hi => ?_⟩
    simp only [FPTx]
    exact List.mem_append_left _ (List.mem_append_left _
      (List.mem_append_right _ (List.mem_map_of_mem _ hi)))
  · rintro p1 p2 rfl
    refine ⟨by simp [FPTx], fun i hi => ?_⟩
    simp only [FPTx]
    exact List.mem_append_left _ (List.mem_append_left _
      (List.mem_append_left _ (List.mem_append_right _
        (List.mem_map_of_mem _ hi))))
  · intro h3
    match pl, h3 with
    | q1 :: q2 :: q3 :: qr, _ =>
      constructor
      · intro c hmem
        simp only [FPTx, compBalanceGeneral, sumMoleFracOut, List.mem_append,
                   List.mem_cons, List.mem_map, List.not_mem_nil] at hmem
        cases ds <;> aesop
      · intro i hi
        simp only [FPTx]
        exact List.mem_append_left _ (List.mem_append_left _
          (List.mem_append_left _ (List.mem_map_of_mem _ hi)))

/-- Witness for the amended C2 at concrete inputs: the one-phase direct
equalities, the two-phase sum form, and the absence of a total flow
balance for a three-phase list, all evaluated on explicit lists. -/
theorem FPTx_material_balances_witness :
    (({ name := "total_flow_balance", lhs := PExpr.flow_mol_phase "Vap",
        rhs := PExpr.flow_mol } : PCons) ∈
      FPTx ⟨["a", "b"], ["Vap"], false⟩) ∧
    (({ name := "total_flow_balance",
        lhs := PExpr.total ([ "Vap", "Liq"].map PExpr.flow_mol_phase),
        rhs := PExpr.flow_mol } : PCons) ∈
      FPTx ⟨["a", "b"], ["Vap", "Liq"], true⟩) ∧
    ((compBalanceGeneral ["Vap", "Liq", "Sol"] "a").name ≠
        "total_flow_balance") :=
  ⟨((FPTx_material_balances ⟨["a", "b"], ["Vap"], false⟩ (by decide)
      (by decide)).1 "Vap" rfl).1,
   ((FPTx_material_balances ⟨["a", "b"], ["Vap", "Liq"], true⟩ (by decide)
      (by decide)).2.1 "Vap" "Liq" rfl).1,
   (((FPTx_material_balances ⟨["a", "b"], ["Vap", "Liq", "Sol"], true⟩
      (by decide) (by decide)).2.2 (by decide)).1
      (compBalanceGeneral ["Vap", "Liq", "Sol"] "a")
      (by simp [FPTx])).1⟩

/-- Claim C10 counterexample: selecting the non-custom type vane_diffuser
together with a supplied vane_diffuser_callback does not build the vane
diffuser standard equations: the first branch of the dispatch only logs a
warning and the elif chain is skipped, so the build result contains the
warning and the impeller actions but no vane diffuser equations. -/
theorem compressionStage_noncustom_with_callback_skips_equations :
    compressionStageBuild
      { impeller_type := some ImpellerType.cover_impeller,
        vane_diffuser_type := some VaneDiffuserType.vane_diffuser,
        impeller_callback := none,
        vane_diffuser_callback := some ⟨0⟩ } =
      Except.ok [BuildAction.logWarning, BuildAction.coverImpellerEquations] := by
  rfl

/-- Claim C10 (amended): build raises ConfigurationError whenever
vane_diffuser_type is neither vane_diffuser nor vaneless_diffuser
(including the default None) and no vane_diffuser_callback is supplied,
and likewise for impeller_type once the vane diffuser stage succeeded;
when a non-custom type is selected together with a supplied callback, only
a warning is logged for that stage: the standard equations for the type
are not built and the callback is not invoked. -/
theorem compressionStage_dispatch (cfg : CompressionStageConfig) :
    ((cfg.vane_diffuser_type = none ∨
        cfg.vane_diffuser_type = some VaneDiffuserType.custom) →
      cfg.vane_diffuser_callback = none →
      compressionStageBuild cfg = Except.error
        (CompressorError.configurationError
          "No custom vane diffuser callback provided")) ∧
    (∀ vd, vaneDiffuserSetup cfg.vane_diffuser_type cfg.vane_diffuser_callback
        = Except.ok vd →
      (cfg.impeller_type = none ∨
        cfg.impeller_type = some ImpellerType.custom) →
      cfg.impeller_callback = none →
      compressionStageBuild cfg = Except.error
        (CompressorError.configurationError
          "No custom impeller callback provided")) ∧
    (∀ cb, (cfg.vane_diffuser_type = some VaneDiffuserType.vane_diffuser ∨
        cfg.vane_diffuser_type = some VaneDiffuserType.vaneless_diffuser) →
      cfg.vane_diffuser_callback = some cb →
      vaneDiffuserSetup cfg.vane_diffuser_type cfg.vane_diffuser_callback
        = Except.ok [BuildAction.logWarning]) ∧
    (∀ cb, (cfg.impeller_type = some ImpellerType.cover_impeller ∨
        cfg.impeller_type = some ImpellerType.open_impeller) →
      cfg.impeller_callback = some cb →
      impellerSetup cfg.impeller_type cfg.impeller_callback
        = Except.ok [BuildAction.logWarning]) := by
  obtain ⟨it, vdt, icb, vdcb⟩ := cfg
  refine ⟨?_, ?_, ?_, ?_⟩
  · rintro (rfl | rfl) rfl <;>
      simp [compressionStageBuild, vaneDiffuserSetup, Bind.bind, Except.bind]
  · rintro vd hvd (rfl | rfl) rfl <;>
      simp only [compressionStageBuild, bind, Except.bind] at * <;>
      rw [hvd] <;>
      simp [impellerSetup]
  · rintro cb (rfl | rfl) rfl <;> simp [vaneDiffuserSetup]
  · rintro cb (rfl | rfl) rfl <;> simp [impellerSetup]

/-- Witness for the amended C10 at concrete configurations: a default
config (both types None, no callbacks) fails on the vane diffuser; a
config with a valid vane diffuser but unset impeller and no callback fails
on the impeller; vane_diffuser plus a callback yields only the warning;
cover_impeller plus a callback yields only the warning. -/
theorem compressionStage_dispatch_witness :
    (compressionStageBuild
        { impeller_type := none, vane_diffuser_type := none,
          impeller_callback := none, vane_diffuser_callback := none } =
      Except.error (CompressorError.configurationError
        "No custom vane diffuser callback provided")) ∧
    (compressionStageBuild
        { impeller_type := none,
          vane_diffuser_type := some VaneDiffuserType.vane_diffuser,
          impeller_callback := none, vane_diffuser_callback := none } =
      Except.error (CompressorError.configurationError
        "No custom impeller callback provided")) ∧
    (vaneDiffuserSetup (some VaneDiffuserType.vane_diffuser) (some ⟨1⟩) =
      Except.ok [BuildAction.logWarning]) ∧
    (impellerSetup (some ImpellerType.cover_impeller) (some ⟨1⟩) =
      Except.ok [BuildAction.logWarning]) :=
  ⟨(compressionStage_dispatch
      { impeller_type := none, vane_diffuser_type := none,
        impeller_callback := none, vane_diffuser_callback := none }).1
      (Or.inl rfl) rfl,
   (compressionStage_dispatch
      { impeller_type := none,
        vane_diffuser_type := some VaneDiffuserType.vane_diffuser,
        impeller_callback := none, vane_diffuser_callback := none }).2.1
      [BuildAction.vaneDiffuserEquations] (by rfl) (Or.inl rfl) rfl,
   (compressionStage_dispatch
      { impeller_type := none,
        vane_diffuser_type := some VaneDiffuserType.vane_diffuser,
        impeller_callback := none,
        vane_diffuser_callback := some ⟨1⟩ }).2.2.1
      ⟨1⟩ (Or.inl rfl) rfl,
   (compressionStage_dispatch
      { impeller_type := some ImpellerType.cover_impeller,
        vane_diffuser_type := none,
        impeller_callback := some ⟨1⟩,
        vane_diffuser_callback := none }).2.2.2
      ⟨1⟩ (Or.inl rfl) rfl⟩

/-- Claim C7: ProductData.build constructs its property state block over
the flowsheet's time domain with defined_state=True and
has_phase_equilibrium=False, adds a top-level reference for every state
variable reported by define_state_vars (the references are exactly the
reported state variables, in order), and exposes exactly one port, named
inlet, attached to that state block. -/
theorem productBuild_spec (time : ℕ) (pkg : PropertyPackage) :
    (productBuild time pkg).properties =
      { time := time, defined_state := true,
        has_phase_equilibrium := false, pkg := pkg } ∧
    (productBuild time pkg).references = pkg.state_vars ∧
    (productBuild time pkg).ports =
      [{ name := "inlet", block := (productBuild time pkg).properties }] := by
  refine ⟨rfl, ?_, rfl⟩
  show pkg.state_vars.foldl (fun acc s => acc ++ [s]) [] = pkg.state_vars
  have aux : ∀ (l acc : List String),
      l.foldl (fun acc s => acc ++ [s]) acc = acc ++ l := by
    intro l
    induction l with
    | nil => intro acc; simp
    | cons x xs ih => intro acc; simp [ih]
  simp [aux]

/-- If some entry of a phase_component_list names a phase outside the
phase list or a component outside the component list, validation stops
with a ConfigurationError. -/
theorem checkPhaseComp_error (cl : List String) (pl : List ℤ) :
    ∀ (pcl : List (ℤ × List String)) (p : ℤ) (comps : List String),
      (p, comps) ∈ pcl → (p ∉ pl ∨ ∃ c ∈ comps, c ∉ cl) →
      ∃ m, checkPhaseComp cl pl pcl =
        Except.error (GPError.configurationError m) := by
  intro pcl
  induction pcl with
  | nil => intro p comps h; simp at h
  | cons hd tl ih =>
    intro p comps hmem hbad
    obtain ⟨q, qcomps⟩ := hd
    simp only [checkPhaseComp]
    by_cases hq : q ∈ pl
    · rw [if_pos hq]
      by_cases hcs : ∀ c ∈ qcomps, c ∈ cl
      · rw [if_pos hcs]
        rcases List.mem_cons.mp hmem with heq | htl
        · obtain ⟨rfl, rfl⟩ := Prod.mk.injEq .. ▸ heq
          rcases hbad with hbad | ⟨c, hc, hbad⟩
          · exact absurd hq hbad
          · exact absurd (hcs c hc) hbad
        · exact ih p comps htl hbad
      · rw [if_neg hcs]; exact ⟨_, rfl⟩
    · rw [if_neg hq]; exact ⟨_, rfl⟩

/-- Claim C3: configuring a generic property parameter block fails with
ConfigurationError when no component_list is given, when no phase_list is
given, when a phase_component_list entry names a phase outside phase_list
or a component outside component_list, or when exactly one of
phase_equilibrium_formulation and phase_equilibrium_dict is given; when
both are given and the dict is valid, the block's phase_equilibrium_list
is the given dict and phase_equilibrium_idx is exactly its key set. -/
theorem gpConfigure_spec (cfg : GPConfig) :
    (cfg.component_list = none →
      gpConfigure cfg = Except.error (GPError.configurationError
        "Generic Property Package was not provided with a component_list.")) ∧
    (∀ cl, cfg.component_list = some cl → cfg.phase_list = none →
      gpConfigure cfg = Except.error (GPError.configurationError
        "Generic Property Package was not provided with a phase_list.")) ∧
    (∀ cl pl pcl p comps, cfg.component_list = some cl →
      cfg.phase_list = some pl → cfg.phase_component_list = some pcl →
      (p, comps) ∈ pcl → (p ∉ pl ∨ ∃ c ∈ comps, c ∉ cl) →
      ∃ m, gpConfigure cfg =
        Except.error (GPError.configurationError m)) ∧
    (∀ cl pl, cfg.component_list = some cl → cfg.phase_list = some pl →
      checkPhaseComp cl pl (cfg.phase_component_list.getD []) = Except.ok () →
      ((cfg.phase_equilibrium_formulation = none ∧
          cfg.phase_equilibrium_dict ≠ none) ∨
        (cfg.phase_equilibrium_formulation ≠ none ∧
          cfg.phase_equilibrium_dict = none)) →
      gpConfigure cfg = Except.error (GPError.configurationError
        "provided with only one of phase_equilibrium_formulation and phase_equilibrium_dict.")) ∧
    (∀ cl pl f d, cfg.component_list = some cl → cfg.phase_list = some pl →
      checkPhaseComp cl pl (cfg.phase_component_list.getD []) = Except.ok () →
      cfg.phase_equilibrium_formulation = some f →
      cfg.phase_equilibrium_dict = some d →
      (∀ e ∈ d, e.2.1 ∈ cl ∧ e.2.2.1 ∈ pl ∧ e.2.2.2 ∈ pl) →
      gpConfigure cfg = Except.ok
        { config := cfg,
          phase_equilibrium_list := some d,
          phase_equilibrium_idx := some (d.map Prod.fst) }) := by
  refine ⟨?_, ?_, ?_, ?_, ?_⟩
  · intro h; simp [gpConfigure, h]
  · intro cl h1 h2; simp [gpConfigure, h1, h2]
  · intro cl pl pcl p comps h1 h2 h3 hmem hbad
    obtain ⟨m, hm⟩ := checkPhaseComp_error cl pl pcl p comps hmem hbad
    refine ⟨m, ?_⟩
    simp [gpConfigure, h1, h2, h3, hm]
  · rintro cl pl h1 h2 hok (⟨hf, hd⟩ | ⟨hf, hd⟩)
    · obtain ⟨d, hd⟩ := Option.ne_none_iff_exists'.mp hd
      simp [gpConfigure, h1, h2, hok, hf, hd]
    · obtain ⟨f, hf⟩ := Option.ne_none_iff_exists'.mp hf
      simp [gpConfigure, h1, h2, hok, hf, hd]
  · intro cl pl f d h1 h2 hok hf hd hvalid
    simp [gpConfigure, h1, h2, hok, hf, hd]
    intro x x1 x2 x3 hmem
    exact hvalid (x, x1, x2, x3) hmem

/-- Witness for C3 at concrete configurations mirroring the test suite:
a missing component_list, a missing phase_list, a phase_component_list
naming phase 3 outside [1, 2], a dict without a formulation, and the valid
configuration whose resulting block carries the dict and its key. -/
theorem gpConfigure_spec_witness :
    (gpConfigure ⟨none, none, none, none, none⟩ =
      Except.error (GPError.configurationError
        "Generic Property Package was not provided with a component_list.")) ∧
    (gpConfigure ⟨some ["a", "b", "c"], none, none, none, none⟩ =
      Except.error (GPError.configurationError
        "Generic Property Package was not provided with a phase_list.")) ∧
    (∃ m, gpConfigure ⟨some ["a", "b", "c"], some [1, 2],
        some [(1, ["a", "b", "c"]), (2, ["a", "b", "c"]), (3, ["a", "b", "c"])],
        none, none⟩ = Except.error (GPError.configurationError m)) ∧
    (gpConfigure ⟨some ["a", "b", "c"], some [1, 2], none, none,
        some []⟩ =
      Except.error (GPError.configurationError
        "provided with only one of phase_equilibrium_formulation and phase_equilibrium_dict.")) ∧
    (gpConfigure ⟨some ["a", "b", "c"], some [1, 2], none, some 0,
        some [(1, "a", 1, 2)]⟩ =
      Except.ok
        { config := ⟨some ["a", "b", "c"], some [1, 2], none, some 0,
            some [(1, "a", 1, 2)]⟩,
          phase_equilibrium_list := some [(1, "a", 1, 2)],
          phase_equilibrium_idx := some [1] }) :=
  ⟨(gpConfigure_spec ⟨none, none, none, none, none⟩).1 rfl,
   (gpConfigure_spec ⟨some ["a", "b", "c"], none, none, none, none⟩).2.1
     ["a", "b", "c"] rfl rfl,
   (gpConfigure_spec ⟨some ["a", "b", "c"], some [1, 2],
       some [(1, ["a", "b", "c"]), (2, ["a", "b", "c"]), (3, ["a", "b", "c"])],
       none, none⟩).2.2.1 ["a", "b", "c"] [1, 2]
     [(1, ["a", "b", "c"]), (2, ["a", "b", "c"]), (3, ["a", "b", "c"])]
     3 ["a", "b", "c"] rfl rfl rfl (by decide) (Or.inl (by decide)),
   (gpConfigure_spec ⟨some ["a", "b", "c"], some [1, 2], none, none,
       some []⟩).2.2.2.1 ["a", "b", "c"] [1, 2] rfl rfl (by rfl)
     (Or.inl ⟨rfl, by decide⟩),
   (gpConfigure_spec ⟨some ["a", "b", "c"], some [1, 2], none, some 0,
       some [(1, "a", 1, 2)]⟩).2.2.2.2 ["a", "b", "c"] [1, 2] 0
     [(1, "a", 1, 2)] rfl rfl (by rfl) rfl rfl (by decide)⟩

/-- Claim C6: get_method returns the configured callable when the config
entry is a function; returns the same-named function found in the module
when the entry is a module; raises GenericPropertyPackageError when the
entry is None; raises AttributeError when the option is not declared in
the config; raises ConfigurationError when the entry is neither a
callable nor a module. -/
theorem get_method_spec (config : List (String × ConfigEntry))
    (option : String) :
    (∀ f, config.lookup option = some (ConfigEntry.cmethod f) →
      get_method config option = Except.ok f) ∧
    (∀ m f, config.lookup option = some (ConfigEntry.cmodule m) →
      m.funcs.lookup option = some f →
      get_method config option = Except.ok f) ∧
    (config.lookup option = some ConfigEntry.cnone →
      get_method config option =
        Except.error GetMethodError.genericPropertyPackageError) ∧
    (config.lookup option = none →
      get_method config option =
        Except.error GetMethodError.attributeError) ∧
    (config.lookup option = some ConfigEntry.cother →
      get_method config option =
        Except.error GetMethodError.configurationError) := by
  refine ⟨?_, ?_, ?_, ?_, ?_⟩
  · intro f h
    simp [get_method, h]
  · intro m f h1 h2
    simp [get_method, h1, h2]
  · intro h
    simp [get_method, h]
  · intro h
    simp [get_method, h]
  · intro h
    simp [get_method, h]

/-- Witness for C6 at concrete configs mirroring the test suite: a
directly configured method, a module holding the same-named method, a
None entry, an undeclared option, and a string entry. -/
theorem get_method_spec_witness :
    (get_method [("dummy_option", ConfigEntry.cmethod ⟨7⟩)] "dummy_option" =
      Except.ok ⟨7⟩) ∧
    (get_method [("dummy_option",
        ConfigEntry.cmodule ⟨[("dummy_option", ⟨7⟩)]⟩)] "dummy_option" =
      Except.ok ⟨7⟩) ∧
    (get_method [("dummy_option", ConfigEntry.cnone)] "dummy_option" =
      Except.error GetMethodError.genericPropertyPackageError) ∧
    (get_method [("dummy_option", ConfigEntry.cnone)] "foo" =
      Except.error GetMethodError.attributeError) ∧
    (get_method [("dummy_option", ConfigEntry.cother)] "dummy_option" =
      Except.error GetMethodError.configurationError) :=
  ⟨(get_method_spec [("dummy_option", ConfigEntry.cmethod ⟨7⟩)]
      "dummy_option").1 ⟨7⟩ rfl,
   (get_method_spec [("dummy_option",
      ConfigEntry.cmodule ⟨[("dummy_option", ⟨7⟩)]⟩)] "dummy_option").2.1
      ⟨[("dummy_option", ⟨7⟩)]⟩ ⟨7⟩ rfl rfl,
   (get_method_spec [("dummy_option", ConfigEntry.cnone)]
      "dummy_option").2.2.1 rfl,
   (get_method_spec [("dummy_option", ConfigEntry.cnone)] "foo").2.2.2.1 rfl,
   (get_method_spec [("dummy_option", ConfigEntry.cother)]
      "dummy_option").2.2.2.2 rfl⟩

/-- Claim C4: a sub-flowsheet built without an explicit time argument has
config.time equal to the parent flowsheet's time-domain object and
inherits the parent's time units rather than its own time_units argument;
the three accepted dynamic combinations (steady-state in steady-state,
dynamic in dynamic, steady-state in dynamic) all build successfully with
exactly that shared time domain. -/
theorem subFlowsheet_time_inheritance (p : FSParent) (cfg : FSConfig)
    (fresh : ℕ) (htime : cfg.time = none) :
    (∀ r, flowsheetBuild (some p) fresh cfg = Except.ok r →
      r.time = p.time ∧ r.time_units = p.time_units) ∧
    ((cfg.dynamic = some false ∨ cfg.dynamic = none) → p.dynamic = false →
      flowsheetBuild (some p) fresh cfg = Except.ok
        { dynamic := false, time := p.time, time_units := p.time_units }) ∧
    ((cfg.dynamic = some true ∨ cfg.dynamic = none) → p.dynamic = true →
      flowsheetBuild (some p) fresh cfg = Except.ok
        { dynamic := true, time := p.time, time_units := p.time_units }) ∧
    (cfg.dynamic = some false → p.dynamic = true →
      flowsheetBuild (some p) fresh cfg = Except.ok
        { dynamic := false, time := p.time, time_units := p.time_units }) := by
  refine ⟨?_, ?_, ?_, ?_⟩
  · intro r hr
    simp only [flowsheetBuild, htime] at hr
    split at hr
    · cases hr
    · cases hr
      exact ⟨rfl, rfl⟩
  · rintro (h | h) hss <;>
      simp [flowsheetBuild, resolveDynamic, htime, h, hss]
  · rintro (h | h) hdy <;>
      simp [flowsheetBuild, resolveDynamic, htime, h, hdy]
  · intro h hdy
    simp [flowsheetBuild, resolveDynamic, htime, h, hdy]

/-- Witness for C4 at concrete inputs: a dynamic parent with time domain
42 in seconds and a sub-flowsheet declaring minutes still shares domain
42 with units seconds (dynamic-in-dynamic via useDefault); a steady-state
parent with domain 7 is shared by a steady-state child; a steady-state
child inside the dynamic parent also shares domain 42. -/
theorem subFlowsheet_time_inheritance_witness :
    (flowsheetBuild
        (some { dynamic := true, time := { id := 42, isContinuous := true },
                time_units := some TimeUnits.seconds }) 0
        { dynamic := none, time := none, time_set := TimeSetArg.points [0],
          time_units := some TimeUnits.minutes } = Except.ok
      { dynamic := true, time := { id := 42, isContinuous := true },
        time_units := some TimeUnits.seconds }) ∧
    (flowsheetBuild
        (some { dynamic := false, time := { id := 7, isContinuous := false },
                time_units := none }) 0
        { dynamic := some false, time := none,
          time_set := TimeSetArg.points [0], time_units := none } = Except.ok
      { dynamic := false, time := { id := 7, isContinuous := false },
        time_units := none }) ∧
    (flowsheetBuild
        (some { dynamic := true, time := { id := 42, isContinuous := true },
                time_units := some TimeUnits.seconds }) 0
        { dynamic := some false, time := none,
          time_set := TimeSetArg.points [0], time_units := none } = Except.ok
      { dynamic := false, time := { id := 42, isContinuous := true },
        time_units := some TimeUnits.seconds }) :=
  ⟨(subFlowsheet_time_inheritance
      { dynamic := true, time := { id := 42, isContinuous := true },
        time_units := some TimeUnits.seconds }
      { dynamic := none, time := none, time_set := TimeSetArg.points [0],
        time_units := some TimeUnits.minutes } 0 rfl).2.2.1
      (Or.inr rfl) rfl,
   (subFlowsheet_time_inheritance
      { dynamic := false, time := { id := 7, isContinuous := false },
        time_units := none }
      { dynamic := some false, time := none,
        time_set := TimeSetArg.points [0], time_units := none } 0 rfl).2.1
      (Or.inl rfl) rfl,
   (subFlowsheet_time_inheritance
      { dynamic := true, time := { id := 42, isContinuous := true },
        time_units := some TimeUnits.seconds }
      { dynamic := some false, time := none,
        time_set := TimeSetArg.points [0], time_units := none } 0 rfl).2.2.2
      rfl rfl⟩

/-- Claim C5: building a flowsheet raises DynamicError whenever
dynamic=True is combined with a time specification that cannot support
dynamics: a dynamic top-level flowsheet with a scalar time_set, a dynamic
top-level flowsheet whose external time set is not a ContinuousSet, and a
dynamic sub-flowsheet inside a steady-state parent. -/
theorem flowsheetBuild_dynamic_errors (cfg : FSConfig) (fresh : ℕ) :
    (∀ t, cfg.dynamic = some true → cfg.time = none →
      cfg.time_set = TimeSetArg.scalar t →
      flowsheetBuild none fresh cfg = Except.error (DynError.dynamicError
        "dynamic flowsheet requires a list of points for time_set")) ∧
    (∀ t, cfg.dynamic = some true → cfg.time = some t →
      t.isContinuous = false →
      flowsheetBuild none fresh cfg = Except.error (DynError.dynamicError
        "time domain provided was not a ContinuousSet")) ∧
    (∀ p, cfg.dynamic = some true → p.dynamic = false →
      flowsheetBuild (some p) fresh cfg = Except.error (DynError.dynamicError
        "trying to declare a dynamic model within a steady-state flowsheet")) := by
  refine ⟨?_, ?_, ?_⟩
  · intro t h1 h2 h3
    simp [flowsheetBuild, resolveDynamic, h1, h2, h3]
  · intro t h1 h2 h3
    simp [flowsheetBuild, resolveDynamic, h1, h2, h3]
  · intro p h1 h2
    simp [flowsheetBuild, resolveDynamic, h1, h2]

/-- Witness for C5 at concrete inputs mirroring the tests: dynamic with
time_set 1 (a scalar), dynamic with an external ordinary Set, and a
dynamic child inside a steady-state parent. -/
theorem flowsheetBuild_dynamic_errors_witness :
    (flowsheetBuild none 0
        { dynamic := some true, time := none,
          time_set := TimeSetArg.scalar 1, time_units := none } =
      Except.error (DynError.dynamicError
        "dynamic flowsheet requires a list of points for time_set")) ∧
    (flowsheetBuild none 0
        { dynamic := some true,
          time := some { id := 5, isContinuous := false },
          time_set := TimeSetArg.points [0], time_units := none } =
      Except.error (DynError.dynamicError
        "time domain provided was not a ContinuousSet")) ∧
    (flowsheetBuild
        (some { dynamic := false, time := { id := 7, isContinuous := false },
                time_units := none }) 0
        { dynamic := some true, time := none,
          time_set := TimeSetArg.points [0], time_units := none } =
      Except.error (DynError.dynamicError
        "trying to declare a dynamic model within a steady-state flowsheet")) :=
  ⟨(flowsheetBuild_dynamic_errors
      { dynamic := some true, time := none,
        time_set := TimeSetArg.scalar 1, time_units := none } 0).1
      1 rfl rfl rfl,
   (flowsheetBuild_dynamic_errors
      { dynamic := some true, time := some { id := 5, isContinuous := false },
        time_set := TimeSetArg.points [0], time_units := none } 0).2.1
      { id := 5, isContinuous := false } rfl rfl rfl,
   (flowsheetBuild_dynamic_errors
      { dynamic := some true, time := none,
        time_set := TimeSetArg.points [0], time_units := none } 0).2.2
      { dynamic := false, time := { id := 7, isContinuous := false },
        time_units := none } rfl rfl⟩

/-- Replacing variables commutes with evaluation: the replaced expression
evaluates, under any valuation, to the original expression under the
valuation pulled back through the substitution map. -/
theorem eval_replace (σ : List (VarId × VarId)) (v : VarId → ℚ)
    (e : AExpr) :
    (AExpr.replace σ e).eval v =
      e.eval (fun x => v (applySubst σ x)) := by
  induction e <;> simp [AExpr.replace, AExpr.eval, *]

/-- Claim C8: after apply_to succeeds, the model's slots are exactly the
original slots with the substitution applied to every constraint body,
named Expression and Objective at any block depth, and each one evaluates
(for every valuation, holding variable values fixed) to the original
expression with every replaced variable read through the substitution;
the substitution built from a scalar pair or a single-member pair maps
exactly that variable, and a whole indexed pair maps every index of the
replaced variable to the same index of the replacement. -/
theorem replaceVariables_eval (m m' : List Slot)
    (subst : List (PyComponent × PyComponent)) (σ : List (VarId × VarId))
    (hσ : buildSubstMap subst = Except.ok σ)
    (happ : replaceVariablesApplyTo m subst = Except.ok m') :
    m' = m.map (fun s => { s with body := AExpr.replace σ s.body }) ∧
    (∀ s ∈ m, ∀ v : VarId → ℚ,
      (AExpr.replace σ s.body).eval v =
        s.body.eval (fun x => v (applySubst σ x))) ∧
    (∀ a b, subst = [(PyComponent.scalarVar a, PyComponent.scalarVar b)] →
      σ = [(a, b)]) ∧
    (∀ n ia nb ib,
      subst = [(PyComponent.indexedVar n ia, PyComponent.indexedVar nb ib)] →
      (∀ i ∈ ia, i ∈ ib) →
      σ = ia.map (fun i => (⟨n, i⟩, ⟨nb, i⟩))) := by
  refine ⟨?_, ?_, ?_, ?_⟩
  · simp only [replaceVariablesApplyTo, hσ, bind, Except.bind, pure,
               Except.pure] at happ
    cases happ
    rfl
  · intro s _ v
    exact eval_replace σ v s.body
  · rintro a b rfl
    simp only [buildSubstMap, pairSubstMap, bind, Except.bind, pure,
               Except.pure, List.append_nil] at hσ
    cases hσ
    rfl
  · rintro n ia nb ib rfl hcov
    simp only [buildSubstMap, pairSubstMap] at hσ
    rw [if_pos hcov] at hσ
    simp only [bind, Except.bind, pure, Except.pure, List.append_nil] at hσ
    cases hσ
    rfl

/-- Witness for C8 at the concrete model of the scalar test: the
constraint body z - (x + y) with pair (y, x) rewrites to z - (x + x), and
the rewritten body evaluates under x=2, y=3 to the original body with y
read through the substitution. -/
theorem replaceVariables_eval_witness :
    ([demoSlotAfter] = [demoSlot].map
        (fun s => { s with body := AExpr.replace demoSigma s.body })) ∧
    ((AExpr.replace demoSigma demoSlot.body).eval demoVal =
      demoSlot.body.eval (fun x => demoVal (applySubst demoSigma x))) :=
  ⟨(replaceVariables_eval [demoSlot] [demoSlotAfter] demoSubstArg demoSigma
      rfl rfl).1,
   (replaceVariables_eval [demoSlot] [demoSlotAfter] demoSubstArg demoSigma
      rfl rfl).2.1 demoSlot (List.mem_singleton.mpr rfl) demoVal⟩

/-- Claim C9: apply_to raises TypeError when either member of a
substitution pair is not a variable, TypeError when an indexed variable
is paired with a non-indexed variable, and ValueError when an indexed
variable is paired with an indexed variable whose index set does not
cover the replaced variable's indexes. -/
theorem replaceVariables_errors (m : List Slot) :
    (∀ c n, replaceVariablesApplyTo m [(PyComponent.nonVar n, c)] =
      Except.error RvError.typeError) ∧
    (∀ c n, replaceVariablesApplyTo m [(c, PyComponent.nonVar n)] =
      Except.error RvError.typeError) ∧
    (∀ n ia s, replaceVariablesApplyTo m
        [(PyComponent.indexedVar n ia, PyComponent.scalarVar s)] =
      Except.error RvError.typeError) ∧
    (∀ n ia nb ib, ¬(∀ i ∈ ia, i ∈ ib) →
      replaceVariablesApplyTo m
        [(PyComponent.indexedVar n ia, PyComponent.indexedVar nb ib)] =
      Except.error RvError.valueError) := by
  refine ⟨?_, ?_, ?_, ?_⟩
  · intro c n
    simp [replaceVariablesApplyTo, buildSubstMap, pairSubstMap, bind,
          Except.bind]
  · intro c n
    cases c <;>
      simp [replaceVariablesApplyTo, buildSubstMap, pairSubstMap, bind,
            Except.bind]
  · intro n ia s
    simp [replaceVariablesApplyTo, buildSubstMap, pairSubstMap, bind,
          Except.bind]
  · intro n ia nb ib hcov
    simp only [replaceVariablesApplyTo, buildSubstMap, pairSubstMap]
    rw [if_neg hcov]
    simp [bind, Except.bind]

/-- Witness for C9 on the inputs the tests exercise: a block on either
side of the pair, an indexed variable paired with a scalar, and the
indexed pair whose replacement misses index c. -/
theorem replaceVariables_errors_witness :
    (replaceVariablesApplyTo []
        [(PyComponent.nonVar "b1", PyComponent.indexedVar "x" [["a"], ["b"]])] =
      Except.error RvError.typeError) ∧
    (replaceVariablesApplyTo []
        [(PyComponent.indexedVar "x" [["a"], ["b"]], PyComponent.nonVar "b1")] =
      Except.error RvError.typeError) ∧
    (replaceVariablesApplyTo []
        [(PyComponent.indexedVar "x" [["a"], ["b"]],
          PyComponent.scalarVar ⟨"z", []⟩)] =
      Except.error RvError.typeError) ∧
    (replaceVariablesApplyTo []
        [(PyComponent.indexedVar "x" [["a"], ["b"], ["c"]],
          PyComponent.indexedVar "y" [["a"], ["b"], ["d"]])] =
      Except.error RvError.valueError) :=
  ⟨(replaceVariables_errors []).1 (PyComponent.indexedVar "x" [["a"], ["b"]])
      "b1",
   (replaceVariables_errors []).2.1 (PyComponent.indexedVar "x" [["a"], ["b"]])
      "b1",
   (replaceVariables_errors []).2.2.1 "x" [["a"], ["b"]] ⟨"z", []⟩,
   (replaceVariables_errors []).2.2.2 "x" [["a"], ["b"], ["c"]] "y"
      [["a"], ["b"], ["d"]] (by decide)⟩

end IdaesSpec
